import Mathlib

/-!
Shallow embedding of the rss-notifier service (src/main.rs) and proofs about
its core pipeline: scheduler → dispatcher → per-feed check → notification →
checkpoint update.

Modelling conventions:
* `chrono::DateTime` values are modelled by integer instants (seconds since an
  epoch).  `DateTime::parse_from_rfc2822` yields a `DateTime<FixedOffset>`:
  an instant together with the UTC offset kept from the textual form; chrono's
  equality between `DateTime<Utc>` and `DateTime<FixedOffset>` compares the
  underlying naive-UTC instant only, which is what the embedding's
  `FixedDateTime.utcInstant` projection captures.
* Network, SMTP and database effects are resolved by an `Env` record that
  fixes the outcome of each external interaction of one check invocation.
* The rows of the `rss_feeds` table are a `List RssFeed`; the SQL
  `UPDATE ... SET last_pub_date = $1 WHERE id = $2` is a pointwise map.
-/

namespace RssNotifier

/-- chrono `DateTime<FixedOffset>` as produced by `DateTime::parse_from_rfc2822`:
the absolute instant plus the UTC offset retained from the textual form.
chrono compares such values by instant only (`PartialEq` on the naive UTC
time), so `utcInstant` is the component equality inspects. -/
structure FixedDateTime where
  utcInstant : Int
  offset : Int
deriving DecidableEq, Repr

/-- The fields of `rss::Item` that main.rs reads. -/
structure RssItem where
  title : Option String
  link : Option String
  description : Option String
  pub_date : Option String
deriving DecidableEq, Repr

/-- The fields of `rss::Channel` that main.rs reads. -/
structure Channel where
  items : List RssItem
deriving DecidableEq, Repr

/-- One row of the `rss_feeds` table (struct `RssFeed` in main.rs).
`last_pub_date` is a `DateTime<Utc>`, modelled as its instant. -/
structure RssFeed where
  id : Nat
  name : String
  feed_url : String
  last_pub_date : Option Int
deriving DecidableEq, Repr

/-- The configuration fields (struct `Config` in main.rs) that the core
pipeline reads. -/
structure Config where
  polling_time_sec : Nat
  from_email : String
  to_email : String
deriving DecidableEq, Repr

/-- Outcome of `reqwest::get(...).bytes()` followed by
`rss::Channel::read_from` for one check invocation. -/
inductive FetchOutcome
  | netFail
  | readFail
  | ok (channel : Channel)
deriving DecidableEq, Repr

/-- Resolution of every external interaction of one check invocation:
the fetch outcome, the behaviour of chrono's RFC 2822 date parsing on the
strings of this run, and whether the SMTP connect, the SMTP send and the
checkpoint `UPDATE` succeed. -/
structure Env where
  fetch : FetchOutcome
  parseRfc2822 : String → Option FixedDateTime
  smtpConnect : Bool
  smtpSend : Bool
  dbUpdate : Bool

/-- The error kinds a check invocation can log, mirroring the `anyhow`
contexts attached in `check_send_feed` and `send_notification`. -/
inductive CheckErr
  | fetchFailed
  | readFailed
  | itemEmpty
  | missingPubDate
  | pubDateParseFailed
  | missingLink
  | missingTitle
  | smtpConnectFailed
  | smtpSendFailed
  | dbUpdateFailed
deriving DecidableEq, Repr

/-- The message assembled by `mail_send::mail_builder::MessageBuilder` in
`send_notification`. -/
structure Message where
  from_name : String
  from_email : String
  to_email : String
  subject : String
  html_body : String
  text_body : String
deriving DecidableEq, Repr

/-- The message-construction part of `send_notification`: extract link and
title (each `ok_or` a missing-field error), default the description to empty,
and format the from name, HTML body and text body exactly as main.rs does. -/
def build_message (cfg : Config) (feed : RssFeed) (item : RssItem) :
    Except CheckErr Message :=
  match item.link with
  | none => .error .missingLink
  | some link =>
    match item.title with
    | none => .error .missingTitle
    | some title =>
      let description := item.description.getD ""
      .ok
        { from_name := "RSS " ++ feed.name
          from_email := cfg.from_email
          to_email := cfg.to_email
          subject := title
          html_body :=
            "<p>Original Post: <a href=\"" ++ link ++ "\">" ++ title ++
              "</a></p>" ++ description
          text_body := "Original Post: " ++ title ++ " - " ++ link ++ "\r\n" }

/-- Outcome of one `send_notification` call: message construction can fail on
a missing field; with a built message, the SMTP connect and then the send can
each fail. -/
inductive SendOutcome
  | buildErr (e : CheckErr)
  | connectFail (msg : Message)
  | sendFail (msg : Message)
  | sent (msg : Message)
deriving Repr

/-- `send_notification` from main.rs: build the message, connect to the SMTP
relay, send. -/
def send_notification (env : Env) (cfg : Config) (feed : RssFeed)
    (item : RssItem) : SendOutcome :=
  match build_message cfg feed item with
  | .error e => .buildErr e
  | .ok msg =>
    if env.smtpConnect then
      if env.smtpSend then .sent msg else .sendFail msg
    else .connectFail msg

/-- The SQL `UPDATE rss_feeds SET last_pub_date = $1 WHERE id = $2`. -/
def dbUpdateLastPubDate (db : List RssFeed) (i : Nat) (t : Int) :
    List RssFeed :=
  db.map fun f => if f.id = i then { f with last_pub_date := some t } else f

/-- Everything one `check_send_feed` invocation did: how many times
`send_notification` was invoked, which messages were actually transmitted,
the table contents afterwards, and the `error!` log entries, each tagged with
the tracing-span field `id = feed.id`.  The function returns no error to its
caller; a failing step only adds a log entry. -/
structure CheckResult where
  attempted : Nat
  sent : List Message
  db : List RssFeed
  logged : List (Nat × CheckErr)
deriving Repr

/-- `check_send_feed` from main.rs: fetch the feed, read the channel, take the
first item, parse its `pub_date` as RFC 2822, require a link, compare the
stored checkpoint with the parsed date by exact instant equality (chrono
`==`); on inequality or absent checkpoint, call `send_notification` and, on
success, update `last_pub_date` for this feed's id.  The surrounding
`if let Err(e) = try_block.await` logs any error with the span's feed id and
swallows it. -/
def check_send_feed (env : Env) (cfg : Config) (db : List RssFeed)
    (feed : RssFeed) : CheckResult :=
  match env.fetch with
  | .netFail => ⟨0, [], db, [(feed.id, .fetchFailed)]⟩
  | .readFail => ⟨0, [], db, [(feed.id, .readFailed)]⟩
  | .ok channel =>
    match channel.items.head? with
    | none => ⟨0, [], db, [(feed.id, .itemEmpty)]⟩
    | some item =>
      match item.pub_date with
      | none => ⟨0, [], db, [(feed.id, .missingPubDate)]⟩
      | some s =>
        match env.parseRfc2822 s with
        | none => ⟨0, [], db, [(feed.id, .pubDateParseFailed)]⟩
        | some pub_date =>
          match item.link with
          | none => ⟨0, [], db, [(feed.id, .missingLink)]⟩
          | some _ =>
            if feed.last_pub_date = some pub_date.utcInstant then
              ⟨0, [], db, []⟩
            else
              match send_notification env cfg feed item with
              | .buildErr e => ⟨1, [], db, [(feed.id, e)]⟩
              | .connectFail _ => ⟨1, [], db, [(feed.id, .smtpConnectFailed)]⟩
              | .sendFail _ => ⟨1, [], db, [(feed.id, .smtpSendFailed)]⟩
              | .sent msg =>
                if env.dbUpdate then
                  ⟨1, [msg], dbUpdateLastPubDate db feed.id pub_date.utcInstant,
                    []⟩
                else
                  ⟨1, [msg], db, [(feed.id, .dbUpdateFailed)]⟩

/-- The ordering used by `SELECT ... FROM rss_feeds ORDER BY id`. -/
def feedLe (a b : RssFeed) : Prop := a.id ≤ b.id

instance : DecidableRel feedLe := fun a b => Nat.decLe a.id b.id

instance : IsTotal RssFeed feedLe := ⟨fun a b => Nat.le_total a.id b.id⟩

instance : IsTrans RssFeed feedLe := ⟨fun _ _ _ => Nat.le_trans⟩

/-- The row sequence returned by
`SELECT id, name, feed_url, last_pub_date FROM rss_feeds ORDER BY id`. -/
def listFeedsOrdered (db : List RssFeed) : List RssFeed :=
  List.insertionSort feedLe db

/-- What one dispatcher cycle (`send_feeds`) produces: the list of feeds for
which a `check_send_feed` task was spawned, in launch order, and the value
returned to the caller.  The return value carries no information about the
spawned checks (fire-and-forget). -/
structure CycleResult where
  spawned : List RssFeed
  status : Except Unit Unit
deriving Repr

/-- `send_feeds` from main.rs: list the table ordered by id (this query can
fail) and spawn one `check_send_feed` task per row; return `Ok(())` once all
spawns are issued. -/
def send_feeds (listOk : Bool) (db : List RssFeed) : CycleResult :=
  if listOk then ⟨listFeedsOrdered db, .ok ()⟩ else ⟨[], .error ()⟩

/-- `fetch_one` of `SELECT ... FROM rss_feeds WHERE id = $1`. -/
def getFeedById (db : List RssFeed) (i : Nat) : Option RssFeed :=
  (db.filter fun f => f.id == i).head?

/-- `force_send_feed` from main.rs: look the row up by id (a missing row is a
query error turned into an HTTP error), spawn `check_send_feed` on it, and
return 200 OK immediately. -/
def force_send_feed (db : List RssFeed) (i : Nat) : Except Unit RssFeed :=
  match getFeedById db i with
  | none => .error ()
  | some feed => .ok feed

/-- Outcome of the check spawned by the force-send route for subscription
`i`, against snapshot `db`. -/
def forceCheckOutcome (env : Env) (cfg : Config) (db : List RssFeed)
    (i : Nat) : Option CheckResult :=
  (getFeedById db i).map (check_send_feed env cfg db)

/-- Outcome of the check the scheduled cycle spawns for subscription `i`:
among the rows the dispatcher enumerates, the one whose id is `i`, checked
against the same snapshot `db`. -/
def scheduledCheckOutcome (env : Env) (cfg : Config) (db : List RssFeed)
    (i : Nat) : Option CheckResult :=
  ((listFeedsOrdered db).find? fun f => f.id == i).map
    (check_send_feed env cfg db)

/-- Events of the scheduler loop trace. -/
inductive SchedEvent
  | runCycle (i : Nat)
  | logError (i : Nat)
  | sleep (secs : Nat)
deriving DecidableEq, Repr

/-- One iteration of `send_feeds_scheduler`: run `send_feeds`, log its error
if it returned one, then sleep for `polling_time_sec`. -/
def scheduler_iteration (polling : Nat) (res : Except Unit Unit) (i : Nat) :
    List SchedEvent :=
  [.runCycle i] ++
    (match res with | .error _ => [.logError i] | .ok _ => []) ++
    [.sleep polling]

/-- The trace of the first `n` iterations of the `send_feeds_scheduler` loop,
given the cycle outcomes `results`.  The loop has no exit: the trace is
defined for every `n`. -/
def send_feeds_scheduler (polling : Nat) (results : Nat → Except Unit Unit) :
    Nat → List SchedEvent
  | 0 => []
  | n + 1 =>
    send_feeds_scheduler polling results n ++
      scheduler_iteration polling (results n) n

/-! ### Helper lemmas -/

/-- Unfolding of `check_send_feed` once the fetch, item, date and link steps
have all succeeded: what remains is the checkpoint comparison and the
notification/update tail. -/
theorem check_send_feed_chain (env : Env) (cfg : Config) (db : List RssFeed)
    (feed : RssFeed) (channel : Channel) (item : RssItem) (s : String)
    (pd : FixedDateTime) (l : String)
    (hf : env.fetch = .ok channel) (hi : channel.items.head? = some item)
    (hs : item.pub_date = some s) (hp : env.parseRfc2822 s = some pd)
    (hl : item.link = some l) :
    check_send_feed env cfg db feed =
      if feed.last_pub_date = some pd.utcInstant then ⟨0, [], db, []⟩
      else
        match send_notification env cfg feed item with
        | .buildErr e => ⟨1, [], db, [(feed.id, e)]⟩
        | .connectFail _ => ⟨1, [], db, [(feed.id, .smtpConnectFailed)]⟩
        | .sendFail _ => ⟨1, [], db, [(feed.id, .smtpSendFailed)]⟩
        | .sent msg =>
          if env.dbUpdate then
            ⟨1, [msg], dbUpdateLastPubDate db feed.id pd.utcInstant, []⟩
          else ⟨1, [msg], db, [(feed.id, .dbUpdateFailed)]⟩ := by
  simp only [check_send_feed, hf, hi, hs, hp, hl]

/-- With link and title present, `build_message` succeeds. -/
theorem build_message_ok (cfg : Config) (feed : RssFeed) (item : RssItem)
    (l t : String) (hl : item.link = some l) (ht : item.title = some t) :
    build_message cfg feed item =
      .ok
        { from_name := "RSS " ++ feed.name
          from_email := cfg.from_email
          to_email := cfg.to_email
          subject := t
          html_body :=
            "<p>Original Post: <a href=\"" ++ l ++ "\">" ++ t ++
              "</a></p>" ++ item.description.getD ""
          text_body := "Original Post: " ++ t ++ " - " ++ l ++ "\r\n" } := by
  simp only [build_message, hl, ht]

/-! ### Concrete fixtures used by witnesses and counterexamples -/

/-- Fixture configuration. -/
def cfgW : Config := ⟨60, "noreply@example.org", "inbox@example.org"⟩

/-- Fixture item with every field present. -/
def itemW : RssItem :=
  ⟨some "A Title", some "http://example.org/post", some "Desc",
    some "Wed, 01 Jan 2025 00:00:00 +0000"⟩

/-- Fixture channel holding `itemW`. -/
def chW : Channel := ⟨[itemW]⟩

/-- Fixture RFC 2822 parsing behaviour: `itemW`'s date string denotes
instant 100 at offset 0. -/
def parseW : String → Option FixedDateTime :=
  fun s => if s = "Wed, 01 Jan 2025 00:00:00 +0000" then some ⟨100, 0⟩ else none

/-- Fixture environment where every external interaction succeeds. -/
def envW : Env := ⟨.ok chW, parseW, true, true, true⟩

/-- Fixture subscription without a stored checkpoint. -/
def feedW : RssFeed := ⟨1, "Blog", "http://example.org/rss", none⟩

/-- Fixture subscription whose checkpoint equals `itemW`'s parsed instant. -/
def feedWEq : RssFeed := ⟨2, "Blog2", "http://example.org/rss2", some 100⟩

/-- Fixture table. -/
def dbW : List RssFeed := [feedW, feedWEq]

/-! ### Claim theorems -/

/-- C1: change detection is equality-only — when the stored checkpoint is
present and equals the fetched item's parsed publish instant the check is a
no-op (no notification attempt, no table write, no error); in every other
case exactly one notification is attempted and, when it is transmitted (and
the persistence write succeeds, `hdb`), the checkpoint is overwritten to the
fetched timestamp. -/
theorem change_detection_equality_only
    (env : Env) (cfg : Config) (db : List RssFeed) (feed : RssFeed)
    (channel : Channel) (item : RssItem) (s : String) (pd : FixedDateTime)
    (l : String)
    (hf : env.fetch = .ok channel) (hi : channel.items.head? = some item)
    (hs : item.pub_date = some s) (hp : env.parseRfc2822 s = some pd)
    (hl : item.link = some l) (hdb : env.dbUpdate = true) :
    (feed.last_pub_date = some pd.utcInstant →
      check_send_feed env cfg db feed = ⟨0, [], db, []⟩) ∧
    (feed.last_pub_date ≠ some pd.utcInstant →
      (check_send_feed env cfg db feed).attempted = 1 ∧
      ((check_send_feed env cfg db feed).sent ≠ [] →
        (check_send_feed env cfg db feed).db =
          dbUpdateLastPubDate db feed.id pd.utcInstant)) := by
  rw [check_send_feed_chain env cfg db feed channel item s pd l hf hi hs hp hl]
  constructor
  · intro heq
    simp [heq]
  · intro hne
    rw [if_neg hne]
    cases hsend : send_notification env cfg feed item with
    | buildErr e => simp
    | connectFail m => simp
    | sendFail m => simp
    | sent m => simp [hdb]

/-- C1 witness: with no stored checkpoint the fixture run attempts one
notification and overwrites the checkpoint; with an equal checkpoint it is a
no-op. -/
theorem change_detection_equality_only_witness :
    (envW.fetch = .ok chW) ∧
    (chW.items.head? = some itemW) ∧
    (itemW.pub_date = some "Wed, 01 Jan 2025 00:00:00 +0000") ∧
    (envW.parseRfc2822 "Wed, 01 Jan 2025 00:00:00 +0000" =
      some ⟨100, 0⟩) ∧
    (itemW.link = some "http://example.org/post") ∧
    (envW.dbUpdate = true) ∧
    ((feedW.last_pub_date = some (100 : Int) →
      check_send_feed envW cfgW dbW feedW = ⟨0, [], dbW, []⟩) ∧
    (feedW.last_pub_date ≠ some (100 : Int) →
      (check_send_feed envW cfgW dbW feedW).attempted = 1 ∧
      ((check_send_feed envW cfgW dbW feedW).sent ≠ [] →
        (check_send_feed envW cfgW dbW feedW).db =
          dbUpdateLastPubDate dbW feedW.id 100))) :=
  ⟨rfl, rfl, rfl, by simp [envW, parseW], rfl, rfl,
    change_detection_equality_only envW cfgW dbW feedW chW itemW
      "Wed, 01 Jan 2025 00:00:00 +0000" ⟨100, 0⟩ "http://example.org/post"
      rfl rfl rfl (by simp [envW, parseW]) rfl rfl⟩

/-- C10: the checkpoint comparison is instant-based — whatever UTC offset
`off` the textual RFC 2822 date carried, if the parsed instant equals the
stored UTC checkpoint the check is a no-op. -/
theorem checkpoint_comparison_instant_based
    (env : Env) (cfg : Config) (db : List RssFeed) (feed : RssFeed)
    (channel : Channel) (item : RssItem) (s : String) (t off : Int)
    (l : String)
    (hf : env.fetch = .ok channel) (hi : channel.items.head? = some item)
    (hs : item.pub_date = some s)
    (hp : env.parseRfc2822 s = some ⟨t, off⟩)
    (hl : item.link = some l)
    (hc : feed.last_pub_date = some t) :
    check_send_feed env cfg db feed = ⟨0, [], db, []⟩ := by
  rw [check_send_feed_chain env cfg db feed channel item s ⟨t, off⟩ l
    hf hi hs hp hl]
  simp [hc]

/-- C10 witness: a stored UTC checkpoint at instant 100 and a fetched date
parsed at the same instant but at offset +02:00 (120 minutes) produce a
no-op. -/
theorem checkpoint_comparison_instant_based_witness :
    ((⟨.ok chW, fun s =>
        if s = "Wed, 01 Jan 2025 00:00:00 +0000" then some ⟨100, 120⟩
        else none,
      true, true, true⟩ : Env).parseRfc2822
        "Wed, 01 Jan 2025 00:00:00 +0000" = some ⟨100, 120⟩) ∧
    (feedWEq.last_pub_date = some (100 : Int)) ∧
    check_send_feed
      ⟨.ok chW, fun s =>
        if s = "Wed, 01 Jan 2025 00:00:00 +0000" then some ⟨100, 120⟩
        else none,
      true, true, true⟩ cfgW dbW feedWEq = ⟨0, [], dbW, []⟩ :=
  ⟨by simp, rfl,
    checkpoint_comparison_instant_based _ cfgW dbW feedWEq chW itemW
      "Wed, 01 Jan 2025 00:00:00 +0000" 100 120 "http://example.org/post"
      rfl rfl rfl (by simp) rfl rfl⟩

/-- C2: a failing SMTP connect or send ends the invocation in a logged error,
leaves the table untouched, and a subsequent invocation against the same
table with the same fetched item (environment `env2`) re-detects the change
and re-attempts the notification. -/
theorem notification_failure_blocks_checkpoint
    (env env2 : Env) (cfg : Config) (db : List RssFeed) (feed : RssFeed)
    (channel : Channel) (item : RssItem) (s : String) (pd : FixedDateTime)
    (l t : String)
    (hf : env.fetch = .ok channel) (hi : channel.items.head? = some item)
    (hs : item.pub_date = some s) (hp : env.parseRfc2822 s = some pd)
    (hl : item.link = some l) (ht : item.title = some t)
    (hchanged : feed.last_pub_date ≠ some pd.utcInstant)
    (hfail : env.smtpConnect = false ∨ env.smtpSend = false)
    (hf2 : env2.fetch = .ok channel) (hp2 : env2.parseRfc2822 s = some pd) :
    (check_send_feed env cfg db feed).db = db ∧
    (check_send_feed env cfg db feed).sent = [] ∧
    (check_send_feed env cfg db feed).logged =
      [(feed.id,
        if env.smtpConnect then CheckErr.smtpSendFailed
        else CheckErr.smtpConnectFailed)] ∧
    (check_send_feed env2 cfg db feed).attempted = 1 := by
  have hmsg := build_message_ok cfg feed item l t hl ht
  have h1 := check_send_feed_chain env cfg db feed channel item s pd l
    hf hi hs hp hl
  have h2 := check_send_feed_chain env2 cfg db feed channel item s pd l
    hf2 hi hs hp2 hl
  rw [if_neg hchanged] at h1 h2
  refine ⟨?_, ?_, ?_, ?_⟩
  · rw [h1]
    simp only [send_notification, hmsg]
    rcases hfail with hc | hsnd
    · simp [hc]
    · cases hco : env.smtpConnect <;> simp [hsnd]
  · rw [h1]
    simp only [send_notification, hmsg]
    rcases hfail with hc | hsnd
    · simp [hc]
    · cases hco : env.smtpConnect <;> simp [hsnd]
  · rw [h1]
    simp only [send_notification, hmsg]
    rcases hfail with hc | hsnd
    · simp [hc]
    · cases hco : env.smtpConnect <;> simp [hsnd]
  · rw [h2]
    cases hsend : send_notification env2 cfg feed item with
    | buildErr e => simp
    | connectFail m => simp
    | sendFail m => simp
    | sent m => cases env2.dbUpdate <;> simp

/-- Fixture environment whose SMTP send fails. -/
def envWSendFail : Env := ⟨.ok chW, parseW, true, false, true⟩

/-- C2 witness: with the fixture subscription (no checkpoint) and a failing
SMTP send, the table is unchanged, a send error is logged, and a later run
with a working environment re-attempts the notification. -/
theorem notification_failure_blocks_checkpoint_witness :
    (envWSendFail.fetch = .ok chW) ∧
    (envWSendFail.smtpConnect = false ∨ envWSendFail.smtpSend = false) ∧
    (feedW.last_pub_date ≠ some (100 : Int)) ∧
    ((check_send_feed envWSendFail cfgW dbW feedW).db = dbW ∧
     (check_send_feed envWSendFail cfgW dbW feedW).sent = [] ∧
     (check_send_feed envWSendFail cfgW dbW feedW).logged =
       [(feedW.id,
         if envWSendFail.smtpConnect then CheckErr.smtpSendFailed
         else CheckErr.smtpConnectFailed)] ∧
     (check_send_feed envW cfgW dbW feedW).attempted = 1) :=
  ⟨rfl, Or.inr rfl, by simp [feedW],
    notification_failure_blocks_checkpoint envWSendFail envW cfgW dbW feedW
      chW itemW "Wed, 01 Jan 2025 00:00:00 +0000" ⟨100, 0⟩
      "http://example.org/post" "A Title"
      rfl rfl rfl (by simp [envWSendFail, parseW]) rfl rfl
      (by simp [feedW]) (Or.inr rfl) rfl (by simp [envW, parseW])⟩

/-- The checkpoint `UPDATE` leaves every projection that ignores
`last_pub_date` unchanged on every row. -/
theorem dbUpdateLastPubDate_map_proj {β : Type} (P : RssFeed → β)
    (hP : ∀ (f : RssFeed) (u : Option Int),
      P { f with last_pub_date := u } = P f)
    (db : List RssFeed) (i : Nat) (tm : Int) :
    (dbUpdateLastPubDate db i tm).map P = db.map P := by
  induction db with
  | nil => rfl
  | cons f fs ih =>
    simp only [dbUpdateLastPubDate, List.map_cons] at ih ⊢
    refine congrArg₂ List.cons ?_ ih
    split
    · exact hP f (some tm)
    · rfl

/-- Case shape of one check: either the table is untouched, or the fetch
chain succeeded, the change detector fired, the built message was
transmitted, and the table is exactly the checkpoint update for this feed's
id at the notified item's parsed instant. -/
theorem check_send_feed_db_cases (env : Env) (cfg : Config)
    (db : List RssFeed) (feed : RssFeed) :
    (check_send_feed env cfg db feed).db = db ∨
    ∃ channel item s pd,
      env.fetch = .ok channel ∧ channel.items.head? = some item ∧
      item.pub_date = some s ∧ env.parseRfc2822 s = some pd ∧
      feed.last_pub_date ≠ some pd.utcInstant ∧
      (check_send_feed env cfg db feed).sent ≠ [] ∧
      (check_send_feed env cfg db feed).db =
        dbUpdateLastPubDate db feed.id pd.utcInstant := by
  cases hf : env.fetch with
  | netFail => left; simp [check_send_feed, hf]
  | readFail => left; simp [check_send_feed, hf]
  | ok channel =>
    cases hi : channel.items.head? with
    | none => left; simp [check_send_feed, hf, hi]
    | some item =>
      cases hs : item.pub_date with
      | none => left; simp [check_send_feed, hf, hi, hs]
      | some s =>
        cases hp : env.parseRfc2822 s with
        | none => left; simp [check_send_feed, hf, hi, hs, hp]
        | some pd =>
          cases hl : item.link with
          | none => left; simp [check_send_feed, hf, hi, hs, hp, hl]
          | some l =>
            have hchain := check_send_feed_chain env cfg db feed channel
              item s pd l hf hi hs hp hl
            by_cases heq : feed.last_pub_date = some pd.utcInstant
            · left; rw [hchain, if_pos heq]
            · rw [if_neg heq] at hchain
              cases hsend : send_notification env cfg feed item with
              | buildErr e => left; rw [hchain, hsend]
              | connectFail m => left; rw [hchain, hsend]
              | sendFail m => left; rw [hchain, hsend]
              | sent m =>
                cases hdbu : env.dbUpdate with
                | false => left; rw [hchain, hsend]; simp [hdbu]
                | true =>
                  right
                  refine ⟨channel, item, s, pd, rfl, hi, hs, hp, heq, ?_, ?_⟩
                  · rw [hchain, hsend]; simp [hdbu]
                  · rw [hchain, hsend]; simp [hdbu]

/-- C3: frame invariant — a check never changes any row's id, name or feed
URL; the table is either untouched, or (the chain succeeded, the detector
fired and a message was transmitted) exactly the row with this feed's id has
its `last_pub_date` overwritten with the notified item's parsed publish
instant, all other rows unchanged. -/
theorem check_frame_invariant (env : Env) (cfg : Config) (db : List RssFeed)
    (feed : RssFeed) :
    (check_send_feed env cfg db feed).db.map RssFeed.id = db.map RssFeed.id ∧
    (check_send_feed env cfg db feed).db.map RssFeed.name =
      db.map RssFeed.name ∧
    (check_send_feed env cfg db feed).db.map RssFeed.feed_url =
      db.map RssFeed.feed_url ∧
    ((check_send_feed env cfg db feed).db = db ∨
     ∃ channel item s pd,
       env.fetch = .ok channel ∧ channel.items.head? = some item ∧
       item.pub_date = some s ∧ env.parseRfc2822 s = some pd ∧
       feed.last_pub_date ≠ some pd.utcInstant ∧
       (check_send_feed env cfg db feed).sent ≠ [] ∧
       (check_send_feed env cfg db feed).db =
         dbUpdateLastPubDate db feed.id pd.utcInstant) := by
  have hmap : ∀ {β : Type} (P : RssFeed → β),
      (∀ (f : RssFeed) (u : Option Int),
        P { f with last_pub_date := u } = P f) →
      (check_send_feed env cfg db feed).db.map P = db.map P := by
    intro β P hP
    rcases check_send_feed_db_cases env cfg db feed with
      h | ⟨channel, item, s, pd, _, _, _, _, _, _, h⟩
    · rw [h]
    · rw [h]
      exact dbUpdateLastPubDate_map_proj P hP db feed.id pd.utcInstant
  exact ⟨hmap RssFeed.id (fun _ _ => rfl),
    hmap RssFeed.name (fun _ _ => rfl),
    hmap RssFeed.feed_url (fun _ _ => rfl),
    check_send_feed_db_cases env cfg db feed⟩

/-- C3 witness: on the fixture run the table's ids, names and URLs are
unchanged. -/
theorem check_frame_invariant_witness :
    (check_send_feed envW cfgW dbW feedW).db.map RssFeed.id =
      dbW.map RssFeed.id ∧
    (check_send_feed envW cfgW dbW feedW).db.map RssFeed.name =
      dbW.map RssFeed.name :=
  ⟨(check_frame_invariant envW cfgW dbW feedW).1,
    (check_frame_invariant envW cfgW dbW feedW).2.1⟩

/-- Fixture item whose title is absent but whose other fields are present. -/
def itemNoTitle : RssItem :=
  ⟨none, some "http://example.org/post", none,
    some "Wed, 01 Jan 2025 00:00:00 +0000"⟩

/-- Fixture channel whose first entry is `itemNoTitle`. -/
def chNoTitle : Channel := ⟨[itemNoTitle]⟩

/-- Fixture environment fetching `chNoTitle` with all transports working. -/
def envNoTitle : Env := ⟨.ok chNoTitle, parseW, true, true, true⟩

/-- C4 counterexample: the first entry lacks a title, yet the check does not
fail — with a stored checkpoint equal to the parsed publish instant the run
is a silent no-op (no log entry, no table write), because the code only
extracts the title inside `send_notification`, after change detection. -/
theorem missing_title_not_always_error :
    itemNoTitle.title = none ∧
    chNoTitle.items.head? = some itemNoTitle ∧
    feedWEq.last_pub_date = some (100 : Int) ∧
    check_send_feed envNoTitle cfgW dbW feedWEq = ⟨0, [], dbW, []⟩ := by
  refine ⟨rfl, rfl, rfl, ?_⟩
  have h := check_send_feed_chain envNoTitle cfgW dbW feedWEq chNoTitle
    itemNoTitle "Wed, 01 Jan 2025 00:00:00 +0000" ⟨100, 0⟩
    "http://example.org/post" rfl rfl rfl (by simp [envNoTitle, parseW]) rfl
  rw [h]
  simp [feedWEq]

/-- C4 amended: with a fetched document, an empty entry list, a missing or
unparseable publish date and a missing link each fail the check with the
corresponding error; a missing title fails it only when the change detector
fires, and is silently ignored when the stored checkpoint equals the parsed
instant; an absent description is no error and equals the empty-string
description. -/
theorem missing_field_errors_amended
    (env : Env) (cfg : Config) (db : List RssFeed) (feed : RssFeed)
    (channel : Channel) (item : RssItem) (s : String) (pd : FixedDateTime)
    (l : String)
    (hf : env.fetch = .ok channel) :
    (channel.items = [] →
      check_send_feed env cfg db feed =
        ⟨0, [], db, [(feed.id, .itemEmpty)]⟩) ∧
    (channel.items.head? = some item →
      (item.pub_date = none →
        check_send_feed env cfg db feed =
          ⟨0, [], db, [(feed.id, .missingPubDate)]⟩) ∧
      (item.pub_date = some s →
        (env.parseRfc2822 s = none →
          check_send_feed env cfg db feed =
            ⟨0, [], db, [(feed.id, .pubDateParseFailed)]⟩) ∧
        (env.parseRfc2822 s = some pd →
          (item.link = none →
            check_send_feed env cfg db feed =
              ⟨0, [], db, [(feed.id, .missingLink)]⟩) ∧
          (item.link = some l →
            (item.title = none → feed.last_pub_date = some pd.utcInstant →
              check_send_feed env cfg db feed = ⟨0, [], db, []⟩) ∧
            (item.title = none → feed.last_pub_date ≠ some pd.utcInstant →
              check_send_feed env cfg db feed =
                ⟨1, [], db, [(feed.id, .missingTitle)]⟩) ∧
            (build_message cfg feed { item with description := none } =
              build_message cfg feed
                { item with description := some "" }))))) := by
  refine ⟨?_, ?_⟩
  · intro hempty
    have hi : channel.items.head? = none := by rw [hempty]; rfl
    simp [check_send_feed, hf, hi]
  · intro hi
    refine ⟨?_, ?_⟩
    · intro hs
      simp [check_send_feed, hf, hi, hs]
    · intro hs
      refine ⟨?_, ?_⟩
      · intro hp
        simp [check_send_feed, hf, hi, hs, hp]
      · intro hp
        refine ⟨?_, ?_⟩
        · intro hl
          simp [check_send_feed, hf, hi, hs, hp, hl]
        · intro hl
          have hchain := check_send_feed_chain env cfg db feed channel item
            s pd l hf hi hs hp hl
          refine ⟨?_, ?_, ?_⟩
          · intro _ heq
            rw [hchain, if_pos heq]
          · intro htitle hne
            rw [hchain, if_neg hne]
            simp [send_notification, build_message, hl, htitle]
          · simp [build_message]

/-- C4 amended witness: the fixture run of the no-title item against an
equal checkpoint ends without error. -/
theorem missing_field_errors_amended_witness :
    itemNoTitle.title = none ∧
    feedWEq.last_pub_date = some (100 : Int) ∧
    check_send_feed envNoTitle cfgW dbW feedWEq = ⟨0, [], dbW, []⟩ := by
  have h := missing_field_errors_amended envNoTitle cfgW dbW feedWEq
    chNoTitle itemNoTitle "Wed, 01 Jan 2025 00:00:00 +0000" ⟨100, 0⟩
    "http://example.org/post" rfl
  exact ⟨rfl, rfl,
    ((((h.2 rfl).2 rfl).2 (by simp [envNoTitle, parseW])).2 rfl).1 rfl rfl⟩

/-- Shape of the log of one check: empty, or exactly one entry tagged with
this feed's id. -/
theorem check_logged_shape (env : Env) (cfg : Config) (db : List RssFeed)
    (feed : RssFeed) :
    (check_send_feed env cfg db feed).logged = [] ∨
    ∃ e, (check_send_feed env cfg db feed).logged = [(feed.id, e)] := by
  cases hf : env.fetch with
  | netFail =>
    right; exact ⟨CheckErr.fetchFailed, by simp [check_send_feed, hf]⟩
  | readFail =>
    right; exact ⟨CheckErr.readFailed, by simp [check_send_feed, hf]⟩
  | ok channel =>
    cases hi : channel.items.head? with
    | none =>
      right; exact ⟨CheckErr.itemEmpty, by simp [check_send_feed, hf, hi]⟩
    | some item =>
      cases hs : item.pub_date with
      | none =>
        right
        exact ⟨CheckErr.missingPubDate, by simp [check_send_feed, hf, hi, hs]⟩
      | some s =>
        cases hp : env.parseRfc2822 s with
        | none =>
          right
          exact ⟨CheckErr.pubDateParseFailed,
            by simp [check_send_feed, hf, hi, hs, hp]⟩
        | some pd =>
          cases hl : item.link with
          | none =>
            right
            exact ⟨CheckErr.missingLink,
              by simp [check_send_feed, hf, hi, hs, hp, hl]⟩
          | some l =>
            have hchain := check_send_feed_chain env cfg db feed channel
              item s pd l hf hi hs hp hl
            by_cases heq : feed.last_pub_date = some pd.utcInstant
            · left; rw [hchain, if_pos heq]
            · rw [if_neg heq] at hchain
              cases hsend : send_notification env cfg feed item with
              | buildErr e => right; exact ⟨e, by rw [hchain, hsend]⟩
              | connectFail m =>
                right
                exact ⟨CheckErr.smtpConnectFailed, by rw [hchain, hsend]⟩
              | sendFail m =>
                right
                exact ⟨CheckErr.smtpSendFailed, by rw [hchain, hsend]⟩
              | sent m =>
                cases hdbu : env.dbUpdate with
                | false =>
                  right
                  exact ⟨CheckErr.dbUpdateFailed,
                    by rw [hchain, hsend]; simp [hdbu]⟩
                | true => left; rw [hchain, hsend]; simp [hdbu]

/-- C5: failure isolation — whatever the environment does, a check logs at
most one error, every log entry is tagged with this feed's identifier, and
the invocation itself returns a plain result (the `CheckResult` carries no
error channel to the caller). -/
theorem check_error_isolation (env : Env) (cfg : Config) (db : List RssFeed)
    (feed : RssFeed) :
    (check_send_feed env cfg db feed).logged.map Prod.fst =
      List.replicate (check_send_feed env cfg db feed).logged.length
        feed.id ∧
    (check_send_feed env cfg db feed).logged.length ≤ 1 := by
  rcases check_logged_shape env cfg db feed with h | ⟨e, h⟩ <;>
    rw [h] <;> simp [List.replicate]

/-- C6: one dispatcher cycle with a working subscription query spawns one
check per table row, enumerated in id order (a sorted permutation of the
table), and reports success; the only failing cycle is the one whose listing
query fails, and it spawns nothing.  The returned status carries no
information about any spawned check. -/
theorem dispatcher_cycle (db : List RssFeed) :
    (send_feeds true db).status = .ok () ∧
    List.Sorted feedLe (send_feeds true db).spawned ∧
    List.Perm (send_feeds true db).spawned db ∧
    (send_feeds false db).status = .error () ∧
    (send_feeds false db).spawned = [] :=
  ⟨rfl, List.sorted_insertionSort feedLe db, List.perm_insertionSort feedLe db,
    rfl, rfl⟩

/-- `find?` is the head of `filter`. -/
theorem find?_eq_head?_filter {α : Type} (p : α → Bool) (l : List α) :
    l.find? p = (l.filter p).head? := by
  induction l with
  | nil => rfl
  | cons a t ih =>
    rw [List.find?_cons, List.filter_cons]
    cases hpa : p a
    · simpa using ih
    · simp

/-- `find?` is invariant under permutation when at most one element can
satisfy the predicate. -/
theorem find?_perm_of_unique {α : Type} {l1 l2 : List α} (h : l1.Perm l2)
    (p : α → Bool)
    (uniq : ∀ x ∈ l1, ∀ y ∈ l1, p x = true → p y = true → x = y) :
    l1.find? p = l2.find? p := by
  cases hfind : l1.find? p with
  | none =>
    cases h2 : l2.find? p with
    | none => rfl
    | some y =>
      have hpy : p y = true := List.find?_some h2
      have hy1 : y ∈ l1 := h.mem_iff.mpr (List.mem_of_find?_eq_some h2)
      exact absurd hpy (List.find?_eq_none.mp hfind y hy1)
  | some x =>
    have hpx : p x = true := List.find?_some hfind
    have hx1 : x ∈ l1 := List.mem_of_find?_eq_some hfind
    cases h2 : l2.find? p with
    | none =>
      exact absurd hpx (List.find?_eq_none.mp h2 x (h.mem_iff.mp hx1))
    | some y =>
      have hpy : p y = true := List.find?_some h2
      have hy1 : y ∈ l1 := h.mem_iff.mpr (List.mem_of_find?_eq_some h2)
      rw [uniq x hx1 y hy1 hpx hpy]

/-- C7: manual trigger equivalence — when table ids are unique (the primary
key), the check spawned by the force-send route for subscription `i` and the
check the scheduled cycle spawns for the same subscription, run against the
same snapshot and environment, have identical outcomes. -/
theorem manual_trigger_equivalence (env : Env) (cfg : Config)
    (db : List RssFeed) (i : Nat)
    (hnd : (db.map RssFeed.id).Nodup) :
    forceCheckOutcome env cfg db i = scheduledCheckOutcome env cfg db i := by
  unfold forceCheckOutcome scheduledCheckOutcome getFeedById listFeedsOrdered
  have huniq : ∀ x ∈ db, ∀ y ∈ db,
      (x.id == i) = true → (y.id == i) = true → x = y := by
    intro x hx y hy hpx hpy
    have hxi : x.id = i := by simpa using hpx
    have hyi : y.id = i := by simpa using hpy
    exact List.inj_on_of_nodup_map hnd hx hy (hxi.trans hyi.symm)
  rw [← find?_eq_head?_filter]
  exact congrArg (Option.map (check_send_feed env cfg db))
    (find?_perm_of_unique (List.perm_insertionSort feedLe db).symm _ huniq)

/-- C7 witness: on the two-row fixture table (distinct ids) the force-send
outcome for subscription 2 equals the scheduled outcome. -/
theorem manual_trigger_equivalence_witness :
    (dbW.map RssFeed.id).Nodup ∧
    forceCheckOutcome envW cfgW dbW 2 = scheduledCheckOutcome envW cfgW dbW 2 :=
  ⟨by decide, manual_trigger_equivalence envW cfgW dbW 2 (by decide)⟩

/-- Recognizer for dispatcher-cycle events in a scheduler trace. -/
def isRunCycle : SchedEvent → Bool
  | .runCycle _ => true
  | _ => false

/-- Recognizer for sleep events in a scheduler trace. -/
def isSleep : SchedEvent → Bool
  | .sleep _ => true
  | _ => false

/-- C8: the scheduler loop runs the dispatcher exactly once and sleeps for
the configured interval exactly once in every iteration, however the cycles
end (a failed cycle only adds a log event and never ends the loop — the
trace is defined for every iteration count); each iteration is the cycle,
then the log entry when the cycle failed, then the sleep. -/
theorem scheduler_loop (polling : Nat) (results : Nat → Except Unit Unit)
    (n : Nat) :
    ((send_feeds_scheduler polling results n).filter isRunCycle).length =
      n ∧
    ((send_feeds_scheduler polling results n).filter isSleep).length = n ∧
    send_feeds_scheduler polling results (n + 1) =
      send_feeds_scheduler polling results n ++
        scheduler_iteration polling (results n) n ∧
    scheduler_iteration polling (results n) n =
      [SchedEvent.runCycle n] ++
        (match results n with
          | .error _ => [SchedEvent.logError n]
          | .ok _ => []) ++
        [SchedEvent.sleep polling] := by
  refine ⟨?_, ?_, rfl, rfl⟩ <;>
    · induction n with
      | zero => rfl
      | succ m ih =>
        rw [send_feeds_scheduler, List.filter_append, List.length_append, ih]
        cases hr : results m <;>
          simp [scheduler_iteration, isRunCycle, isSleep]

/-- `sub` occurs contiguously inside `s`. -/
def strContains (s sub : String) : Prop := ∃ p q, s = p ++ (sub ++ q)

/-- Re-associate one step and merge two adjacent string literals. -/
theorem strAppend_merge (a b c x : String) (h : a ++ b = c) :
    a ++ (b ++ x) = c ++ x := by rw [← String.append_assoc, h]

/-- The message `send_notification` hands to the SMTP client, when
construction succeeds. -/
def builtMessage (cfg : Config) (feed : RssFeed) (item : RssItem) :
    Option Message :=
  (build_message cfg feed item).toOption

/-- C9: notification message shape — the From display name is `"RSS "`
followed by the subscription name, the subject is the item title, both
bodies contain the title and the link (the HTML body as an anchor), and the
description is appended to the HTML body only: the text body is independent
of the description, while the HTML body is the description-free HTML body
with the description appended. -/
theorem notification_message_shape
    (cfg : Config) (feed : RssFeed) (item : RssItem) (l t : String)
    (hl : item.link = some l) (ht : item.title = some t) :
    (builtMessage cfg feed item).map Message.from_name =
      some ("RSS " ++ feed.name) ∧
    (builtMessage cfg feed item).map Message.subject = some t ∧
    (∃ m, builtMessage cfg feed item = some m ∧
      strContains m.text_body t ∧
      strContains m.text_body l ∧
      strContains m.html_body
        ("<a href=\"" ++ (l ++ ("\">" ++ (t ++ "</a>")))) ∧
      strContains m.html_body t ∧
      strContains m.html_body l) ∧
    (builtMessage cfg feed item).map Message.text_body =
      (builtMessage cfg feed { item with description := none }).map
        Message.text_body ∧
    (builtMessage cfg feed item).map Message.html_body =
      (builtMessage cfg feed { item with description := none }).map
        (fun m => m.html_body ++ item.description.getD "") := by
  have hb := build_message_ok cfg feed item l t hl ht
  have hb0 := build_message_ok cfg feed { item with description := none }
    l t hl ht
  refine ⟨?_, ?_, ?_, ?_, ?_⟩
  · simp [builtMessage, hb, Except.toOption]
  · simp [builtMessage, hb, Except.toOption]
  · refine ⟨{ from_name := "RSS " ++ feed.name
              from_email := cfg.from_email
              to_email := cfg.to_email
              subject := t
              html_body :=
                "<p>Original Post: <a href=\"" ++ l ++ "\">" ++ t ++
                  "</a></p>" ++ item.description.getD ""
              text_body := "Original Post: " ++ t ++ " - " ++ l ++ "\r\n" },
      by simp [builtMessage, hb, Except.toOption], ?_, ?_, ?_, ?_, ?_⟩
    · exact ⟨"Original Post: ", " - " ++ (l ++ "\r\n"),
        by simp [String.append_assoc]⟩
    · exact ⟨"Original Post: " ++ (t ++ " - "), "\r\n",
        by simp [String.append_assoc]⟩
    · refine ⟨"<p>Original Post: ", "</p>" ++ item.description.getD "", ?_⟩
      simp only [String.append_assoc]
      rw [strAppend_merge "</a>" "</p>" "</a></p>"
        (item.description.getD "") rfl]
      rw [strAppend_merge "<p>Original Post: " "<a href=\""
        "<p>Original Post: <a href=\""
        (l ++ ("\">" ++ (t ++ ("</a></p>" ++ item.description.getD ""))))
        rfl]
    · exact ⟨"<p>Original Post: <a href=\"" ++ (l ++ "\">"),
        "</a></p>" ++ item.description.getD "",
        by simp [String.append_assoc]⟩
    · exact ⟨"<p>Original Post: <a href=\"",
        "\">" ++ (t ++ ("</a></p>" ++ item.description.getD "")),
        by simp [String.append_assoc]⟩
  · simp [builtMessage, hb, hb0, Except.toOption]
  · simp [builtMessage, hb, hb0, Except.toOption]

/-- C9 witness: on the fixture subscription and item the From display name
is `"RSS Blog"` and the subject is the item title. -/
theorem notification_message_shape_witness :
    itemW.link = some "http://example.org/post" ∧
    itemW.title = some "A Title" ∧
    (builtMessage cfgW feedW itemW).map Message.from_name =
      some ("RSS " ++ feedW.name) ∧
    (builtMessage cfgW feedW itemW).map Message.subject = some "A Title" :=
  ⟨rfl, rfl,
    (notification_message_shape cfgW feedW itemW "http://example.org/post"
      "A Title" rfl rfl).1,
    (notification_message_shape cfgW feedW itemW "http://example.org/post"
      "A Title" rfl rfl).2.1⟩

end RssNotifier
